import Mathlib

/-!
Verification of the cfdns DNS reconciliation engine (GoodiesHQ/cfdns).

This file gives a shallow embedding in Lean 4 of the parts of the Go source
that the checked specification sentences are about:

* `pkg/cf` — the reconciliation engine (`checkAndUpdate`, `SetConfig`,
  `getPublicIPs`, `Process`);
* `pkg/ipget` — the public-IP resolver (`getSmallText`, `getPublicIP`,
  `strToIP`, a model of Go's `net.ParseIP`);
* `pkg/config` — configuration loading/validation (`expandEnv`, the
  validation and defaulting pipeline of `LoadConfig`);
* `cmd` — the config-file watcher (`FileSig.Changed`, the watch loop body).

Pure functions of the Go source become Lean functions; the effectful parts
are embedded by making their inputs (HTTP responses, listed DNS records,
environment lookups, file signatures) explicit parameters and their outputs
(issued API calls, submitted tasks, emitted notifications, field writes)
explicit return values, in the exact order the Go code produces them.
`time.Duration` values are `Int` nanosecond counts; Go `nil` pointers are
`Option.none`.
-/

namespace Cfdns

/-- `config.Domain`: a hostname plus the tri-state proxied flag
(`*bool` in Go; `none` models a nil pointer, i.e. "unspecified"). -/
structure Domain where
  hostname : String
  proxied : Option Bool
deriving DecidableEq, Repr

/-- `cloudflare.DNSRecord`, restricted to the fields the engine reads:
identifier, hostname, record type, content and the remote proxied flag
(`*bool`, `none` = unspecified on the provider side). -/
structure DNSRecord where
  id : String
  name : String
  rtype : String
  content : String
  proxied : Option Bool
deriving DecidableEq, Repr

/-- An API mutation issued by `checkAndUpdate`: either
`api.CreateDNSRecord` (with the fields of `CreateDNSRecordParams` that the
code fills in) or `api.UpdateDNSRecord` (ditto for
`UpdateDNSRecordParams`: record ID, new content, requested proxied flag). -/
inductive ApiCall where
  | create (name content rtype : String) (proxied : Option Bool)
  | update (id content : String) (proxied : Option Bool)
deriving DecidableEq, Repr

/-- The skip condition of the record loop in `CFDNS.checkAndUpdate`
(pkg/cf, part_000 lines 461-463):
`record.Content == address && (record.Proxied == nil || domain.Proxied == nil
|| *record.Proxied == *domain.Proxied)`. -/
def recordMatches (record : DNSRecord) (domain : Domain) (address : String) : Bool :=
  record.content == address &&
    (record.proxied.isNone || domain.proxied.isNone ||
      record.proxied == domain.proxied)

/-- The `for _, record := range records` loop of `CFDNS.checkAndUpdate`
(part_000 lines 457-500), as the list of update calls it issues, in order.
A record satisfying the skip condition makes the Go function `return nil`
immediately; a record that does not match gets an `UpdateDNSRecord` call
carrying the resolved address and the domain's proxied setting.
(Update-call failures abort the loop with an error in Go; this model tracks
the calls issued on the path where every issued call succeeds.) -/
def updateLoop (domain : Domain) (address : String) : List DNSRecord → List ApiCall
  | [] => []
  | record :: rest =>
    if recordMatches record domain address then
      []
    else
      ApiCall.update record.id address domain.proxied :: updateLoop domain address rest

/-- `CFDNS.checkAndUpdate` (part_000 lines 413-501) given the record list
that `getRecords` returned for the hostname+type pair: an empty list leads
to a single `CreateDNSRecord` call with the hostname, resolved address,
record type and the domain's proxied setting; otherwise the record loop
runs. -/
def checkAndUpdate (domain : Domain) (recordType address : String)
    (records : List DNSRecord) : List ApiCall :=
  match records with
  | [] => [ApiCall.create domain.hostname address recordType domain.proxied]
  | _ :: _ => updateLoop domain address records

/-- Claim C1: for a record evaluated by `checkAndUpdate`, no update call is
issued for it exactly when its content equals the resolved address and the
proxied comparison holds, the proxied comparison being treated as a match
whenever the record's remote proxied flag or the domain's requested flag is
unspecified (`nil`); in particular an existing A record with content
`203.0.113.9` and proxied `true`, against a domain with proxied
unspecified, receives no update call. -/
theorem checkAndUpdate_match_condition :
    (∀ (record : DNSRecord) (domain : Domain) (recordType address : String),
      checkAndUpdate domain recordType address [record] = [] ↔
        (record.content = address ∧
          (record.proxied = none ∨ domain.proxied = none ∨
            record.proxied = domain.proxied))) ∧
    checkAndUpdate ⟨"a.example.com", none⟩ "A" "203.0.113.9"
      [⟨"rid1", "a.example.com", "A", "203.0.113.9", some true⟩] = [] := by
  constructor
  · intro record domain recordType address
    have hiff : recordMatches record domain address = true ↔
        (record.content = address ∧
          (record.proxied = none ∨ domain.proxied = none ∨
            record.proxied = domain.proxied)) := by
      obtain ⟨rid, rname, rty, rcontent, rproxied⟩ := record
      obtain ⟨dhost, dproxied⟩ := domain
      cases rproxied <;> cases dproxied <;>
        simp [recordMatches, and_assoc]
    constructor
    · intro h
      by_cases hm : recordMatches record domain address
      · exact hiff.mp hm
      · simp [checkAndUpdate, updateLoop, hm] at h
    · intro h
      have hm := hiff.mpr h
      simp [checkAndUpdate, updateLoop, hm]
  · rfl

/-- Claim C2 (counterexample): two records for the same hostname+type, the
first matching (content equal, proxied unspecified on both sides), the
second differing in content; the claim predicts an update call for the
second record, but `checkAndUpdate` returns at the first match and issues
no call at all. -/
theorem checkAndUpdate_duplicate_counterexample :
    checkAndUpdate ⟨"a.example.com", none⟩ "A" "203.0.113.9"
      [⟨"rid1", "a.example.com", "A", "203.0.113.9", none⟩,
       ⟨"rid2", "a.example.com", "A", "198.51.100.7", none⟩] = [] ∧
    (DNSRecord.content ⟨"rid2", "a.example.com", "A", "198.51.100.7", none⟩ ≠
      "203.0.113.9") := by
  constructor
  · rfl
  · decide

/-- Claim C2 (amended): the record loop evaluates records in order and stops
at the first matching record, returning success immediately; every record
strictly before the first match receives its own update call (content and
the domain's proxied setting), and records at or after the first match
receive none. Equivalently, the issued update calls are exactly the map of
the update construction over the longest mismatching prefix of the record
list. -/
theorem updateLoop_eq_takeWhile :
    ∀ (domain : Domain) (address : String) (records : List DNSRecord),
      updateLoop domain address records =
        (records.takeWhile (fun r => !recordMatches r domain address)).map
          (fun r => ApiCall.update r.id address domain.proxied) := by
  intro domain address records
  induction records with
  | nil => rfl
  | cons record rest ih =>
    by_cases h : recordMatches record domain address
    · simp [updateLoop, List.takeWhile, h]
    · simp [updateLoop, List.takeWhile, h, ih]

/-- `config.Config` (pkg/config): zone ID, token, frequency and timeout as
`time.Duration` nanosecond counts (`Int`), verbose flag, tri-state IPv4/IPv6
enable flags (`*bool`), the domain list and the worker count. -/
structure Config where
  zoneID : String
  token : String
  frequency : Int
  verbose : Bool
  ipv4 : Option Bool
  ipv6 : Option Bool
  domains : List Domain
  workerCount : Int
  timeout : Int
deriving DecidableEq, Repr

/-- Model of the Cloudflare API client handle: it carries the credential it
was constructed with. -/
structure API where
  token : String
deriving DecidableEq, Repr

/-- Model of the external `cloudflare.NewWithAPIToken` (cloudflare-go):
construction fails exactly on an empty API token, otherwise it yields a
client holding the token. -/
def newWithAPIToken (token : String) : Except String API :=
  if token = "" then Except.error "invalid credentials: API Token must not be empty"
  else Except.ok ⟨token⟩

/-- A `goropo.Pool` handle: an identity tag plus the constructor arguments
`NewPool(workerCount, workerCount*5)`. The tag distinguishes the old pool
from its replacement. -/
structure Pool where
  tag : Nat
  workers : Int
  queueSize : Int
deriving DecidableEq, Repr

/-- The mutable fields of the `CFDNS` struct that `SetConfig` touches:
configuration, API client, the HTTP client (represented by the timeout it
is built with), the timeout field, and the pool handle (`none` = nil). -/
structure CFDNSState where
  cfg : Config
  api : Option API
  httpClientTimeout : Int
  timeout : Int
  pool : Option Pool
deriving DecidableEq, Repr

/-- One primitive step of `CFDNS.SetConfig`'s success path: a field write
or the `Close()` call on the previous pool. -/
inductive SetEv where
  | setApi (a : API)
  | setHttpClient (t : Int)
  | closePool (p : Pool)
  | setTimeout (t : Int)
  | setPool (p : Pool)
  | setCfg (c : Config)
deriving DecidableEq, Repr

/-- `CFDNS.SetConfig` (part_000 lines 327-359). Input: the current state,
the (possibly nil) new configuration, and a fresh tag for the pool that
`goropo.NewPool` would return. Output: the trace of primitive steps paired
with the state right after each step, the final state, and the returned
error (`none` = nil). A nil configuration skips the whole body and returns
nil; a failing `cloudflare.NewWithAPIToken` returns its error before any
field write; otherwise the steps happen in source order: write `api`, write
`httpClient`, close the previous pool if non-nil, write `timeout`, write
`pool` with the new pool, write `cfg`. -/
def setConfig (s : CFDNSState) (cfgArg : Option Config) (freshTag : Nat) :
    List (SetEv × CFDNSState) × CFDNSState × Option String :=
  match cfgArg with
  | none => ([], s, none)
  | some cfg =>
    match newWithAPIToken cfg.token with
    | Except.error e => ([], s, some e)
    | Except.ok api =>
      let s1 : CFDNSState := { s with api := some api }
      let s2 : CFDNSState := { s1 with httpClientTimeout := cfg.timeout }
      let closeSteps : List (SetEv × CFDNSState) :=
        match s2.pool with
        | some p => [(SetEv.closePool p, s2)]
        | none => []
      let s3 : CFDNSState := { s2 with timeout := cfg.timeout }
      let newPool : Pool := ⟨freshTag, cfg.workerCount, cfg.workerCount * 5⟩
      let s4 : CFDNSState := { s3 with pool := some newPool }
      let s5 : CFDNSState := { s4 with cfg := cfg }
      ((SetEv.setApi api, s1) :: (SetEv.setHttpClient cfg.timeout, s2) :: closeSteps ++
        [(SetEv.setTimeout cfg.timeout, s3), (SetEv.setPool newPool, s4),
         (SetEv.setCfg cfg, s5)],
       s5, none)

/-- A sample pre-state used by the concrete `SetConfig` theorems: a store
already holding a configuration, client and pool. -/
def exState : CFDNSState :=
  { cfg := { zoneID := "zone0", token := "tok0", frequency := 3600000000000,
             verbose := false, ipv4 := some true, ipv6 := some true,
             domains := [⟨"a.example.com", none⟩], workerCount := 10,
             timeout := 10000000000 }
    api := some ⟨"tok0"⟩
    httpClientTimeout := 10000000000
    timeout := 10000000000
    pool := some ⟨0, 10, 50⟩ }

/-- A sample replacement configuration with a valid (non-empty) token. -/
def exNewCfg : Config :=
  { zoneID := "zone1", token := "tok1", frequency := 60000000000,
    verbose := true, ipv4 := some true, ipv6 := some false,
    domains := [⟨"b.example.com", some true⟩], workerCount := 4,
    timeout := 2000000000 }

/-- Claim C3 (counterexample): `SetConfig` called with a nil configuration
returns a nil error — not the non-nil error the claim asserts — while
leaving every field unchanged. -/
theorem setConfig_nil_counterexample :
    setConfig exState none 1 = ([], exState, none) := by
  rfl

/-- Claim C3 (amended): `SetConfig` with a nil configuration is a no-op
that returns a nil error and leaves every field of the store unchanged;
`SetConfig` with a configuration whose credentialed client construction
fails returns a non-nil error and likewise leaves the stored configuration,
API client, HTTP client, timeout and pool unchanged (no field is modified
on either path). -/
theorem setConfig_error_paths (s : CFDNSState) (cfg : Config) (freshTag freshTag' : Nat)
    (hfail : cfg.token = "") :
    setConfig s none freshTag = ([], s, none) ∧
    ∃ e, setConfig s (some cfg) freshTag' = ([], s, some e) := by
  refine ⟨rfl, ?_⟩
  refine ⟨"invalid credentials: API Token must not be empty", ?_⟩
  simp [setConfig, newWithAPIToken, hfail]

/-- Witness for `setConfig_error_paths` at a concrete store and a concrete
replacement whose token is empty. -/
theorem setConfig_error_paths_witness :
    setConfig exState none 1 = ([], exState, none) ∧
    ∃ e, setConfig exState (some { exNewCfg with token := "" }) 1 =
      ([], exState, some e) :=
  setConfig_error_paths exState { exNewCfg with token := "" } 1 1 rfl

/-- Claim C4 (counterexample): replacing the configuration of `exState`
(which holds pool tag 0) with the valid `exNewCfg` produces the step trace
in which the previous pool is closed at position 2 — strictly before the
new pool is stored (position 4) and before the configuration is stored
(position 5) — and the state paired with the close step still has the old
pool as the store's current pool handle. This contradicts the claim that
the close happens only after the swap and never while the old pool is the
current handle. -/
theorem setConfig_close_counterexample :
    ((setConfig exState (some exNewCfg) 1).1.map Prod.fst =
      [SetEv.setApi ⟨"tok1"⟩, SetEv.setHttpClient 2000000000,
       SetEv.closePool ⟨0, 10, 50⟩, SetEv.setTimeout 2000000000,
       SetEv.setPool ⟨1, 4, 20⟩, SetEv.setCfg exNewCfg]) ∧
    ((setConfig exState (some exNewCfg) 1).1.get? 2).map (fun st => st.2.pool) =
      some (some ⟨0, 10, 50⟩) := by
  constructor
  · rfl
  · rfl

/-- Claim C4 (amended): on a successful replacement over a store whose pool
is non-nil, the previous pool is closed after the new API client and HTTP
client have been written but before the timeout, the new pool and the new
configuration are stored; at the moment of the close, the store's pool
field still holds the previous pool (the close is never deferred until
after the swap). -/
theorem setConfig_close_ordering (s : CFDNSState) (cfg : Config) (p : Pool)
    (freshTag : Nat) (hpool : s.pool = some p) (htok : cfg.token ≠ "") :
    (setConfig s (some cfg) freshTag).1.map Prod.fst =
      [SetEv.setApi ⟨cfg.token⟩, SetEv.setHttpClient cfg.timeout,
       SetEv.closePool p, SetEv.setTimeout cfg.timeout,
       SetEv.setPool ⟨freshTag, cfg.workerCount, cfg.workerCount * 5⟩,
       SetEv.setCfg cfg] ∧
    (∀ ev st, (ev, st) ∈ (setConfig s (some cfg) freshTag).1 →
      ev = SetEv.closePool p → st.pool = some p) := by
  have hapi : newWithAPIToken cfg.token = Except.ok ⟨cfg.token⟩ := by
    simp [newWithAPIToken, htok]
  constructor
  · simp [setConfig, hapi, hpool]
  · intro ev st hmem hev
    subst hev
    simp [setConfig, hapi, hpool] at hmem
    subst hmem
    simp [hpool]

/-- Witness for `setConfig_close_ordering` at the concrete store and
replacement. -/
theorem setConfig_close_ordering_witness :
    (setConfig exState (some exNewCfg) 1).1.map Prod.fst =
      [SetEv.setApi ⟨"tok1"⟩, SetEv.setHttpClient 2000000000,
       SetEv.closePool ⟨0, 10, 50⟩, SetEv.setTimeout 2000000000,
       SetEv.setPool ⟨1, 4, 20⟩, SetEv.setCfg exNewCfg] :=
  (setConfig_close_ordering exState exNewCfg ⟨0, 10, 50⟩ 1 rfl (by decide)).1

/-- The characters Go's `strings.TrimSpace` strips for ASCII input
(`unicode.IsSpace` on the Latin-1 fast path): space, tab, newline,
vertical tab, form feed, carriage return. -/
def isGoSpace (c : Char) : Bool :=
  c = ' ' || c = '\t' || c = '\n' || c = '\x0B' || c = '\x0C' || c = '\r'

/-- Model of `strings.TrimSpace` over the characters of an ASCII body. -/
def goTrimSpace (cs : List Char) : List Char :=
  ((cs.dropWhile isGoSpace).reverse.dropWhile isGoSpace).reverse

/-- Split a character list on every occurrence of the separator character
(the splitting used by the IP parsers for `.` and `:`). -/
def splitOnChar (sep : Char) : List Char → List (List Char)
  | [] => [[]]
  | c :: rest =>
    if c = sep then
      [] :: splitOnChar sep rest
    else
      match splitOnChar sep rest with
      | [] => [[c]]
      | part :: parts => (c :: part) :: parts

/-- Decimal digit list to the number it denotes. -/
def decToNat (cs : List Char) : Nat :=
  cs.foldl (fun a c => a * 10 + (c.toNat - 48)) 0

/-- One dotted-decimal IPv4 field, as Go's strict parser accepts it:
one to three decimal digits, no leading zero (except the single digit
`0`), value at most 255. -/
def parseV4Field (cs : List Char) : Option Nat :=
  match cs with
  | [] => none
  | c0 :: rest =>
    if (c0 :: rest).all Char.isDigit && cs.length ≤ 3 &&
        (rest.isEmpty || c0 != '0') then
      let v := decToNat cs
      if v ≤ 255 then some v else none
    else none

/-- Model of Go's strict dotted-decimal IPv4 parse (`netip.ParseAddr` /
`net.ParseIP` for `a.b.c.d`): exactly four valid fields. -/
def parseIPv4Chars (cs : List Char) : Option (Nat × Nat × Nat × Nat) :=
  match splitOnChar '.' cs with
  | [a, b, c, d] =>
    match parseV4Field a, parseV4Field b, parseV4Field c, parseV4Field d with
    | some va, some vb, some vc, some vd => some (va, vb, vc, vd)
    | _, _, _, _ => none
  | _ => none

/-- Hexadecimal digit test for IPv6 groups. -/
def isHexDigitChar (c : Char) : Bool :=
  c.isDigit || ('a' ≤ c && c ≤ 'f') || ('A' ≤ c && c ≤ 'F')

/-- Value of one hexadecimal digit. -/
def hexVal (c : Char) : Nat :=
  if c.isDigit then c.toNat - 48
  else if 'a' ≤ c && c ≤ 'f' then c.toNat - 87
  else c.toNat - 55

/-- Hexadecimal digit list to the number it denotes. -/
def hexToNat (cs : List Char) : Nat :=
  cs.foldl (fun a c => a * 16 + hexVal c) 0

/-- One IPv6 group: one to four hexadecimal digits (leading zeros
allowed). -/
def parseHexGroup (cs : List Char) : Option Nat :=
  if !cs.isEmpty && cs.length ≤ 4 && cs.all isHexDigitChar then
    some (hexToNat cs)
  else none

/-- Split at the first `::`, when present, returning the parts before and
after it. -/
def findDoubleColon : List Char → Option (List Char × List Char)
  | [] => none
  | ':' :: ':' :: rest => some ([], rest)
  | c :: rest => (findDoubleColon rest).map (fun p => (c :: p.1, p.2))

/-- The colon-separated parts of one side of an IPv6 literal, as 16-bit
group values. When `allowV4Tail` is set, the final part may be an embedded
dotted-decimal IPv4 address contributing the last two groups (as Go's
parser allows at the end of an address). -/
def parseParts (allowV4Tail : Bool) : List (List Char) → Option (List Nat)
  | [] => some []
  | [last] =>
    if allowV4Tail && last.contains '.' then
      (parseIPv4Chars last).map (fun q => [q.1 * 256 + q.2.1, q.2.2.1 * 256 + q.2.2.2])
    else
      (parseHexGroup last).map (fun g => [g])
  | p :: rest =>
    match parseHexGroup p, parseParts allowV4Tail rest with
    | some g, some gs => some (g :: gs)
    | _, _ => none

/-- One side of an IPv6 literal around `::`; an empty side contributes no
groups (as in `::1` or `1::`). -/
def parseSide (allowV4Tail : Bool) (cs : List Char) : Option (List Nat) :=
  if cs.isEmpty then some []
  else parseParts allowV4Tail (splitOnChar ':' cs)

/-- Model of Go's IPv6 literal parse (`netip.ParseAddr`, no zone): without
`::` exactly eight groups are required; with a single `::` the two sides
together supply at most seven groups and the gap is zero-filled (`::` must
stand for at least one group); a second `::` is invalid. The result is the
list of eight 16-bit group values. -/
def parseIPv6Chars (cs : List Char) : Option (List Nat) :=
  match findDoubleColon cs with
  | none =>
    match parseSide true cs with
    | some gs => if gs.length = 8 then some gs else none
    | none => none
  | some (pre, post) =>
    if (findDoubleColon post).isSome then none
    else
      match parseSide false pre, parseSide true post with
      | some preGs, some postGs =>
        if preGs.length + postGs.length ≤ 7 then
          some (preGs ++ List.replicate (8 - preGs.length - postGs.length) 0 ++ postGs)
        else none
      | _, _ => none

/-- An IP address as the engine sees it after `strToIP`: a 4-byte IPv4
value (also the result of `To4` on an IPv4-mapped IPv6 address) or eight
16-bit IPv6 groups. -/
inductive IPAddr where
  | v4 (a b c d : Nat)
  | v6 (groups : List Nat)
deriving DecidableEq, Repr

/-- Model of `net.ParseIP`: dotted-decimal IPv4 first, otherwise an IPv6
literal. -/
def parseIP (s : String) : Option IPAddr :=
  match parseIPv4Chars s.data with
  | some q => some (IPAddr.v4 q.1 q.2.1 q.2.2.1 q.2.2.2)
  | none => (parseIPv6Chars s.data).map IPAddr.v6

/-- `net.IP.To4`: an IPv4-mapped IPv6 address (`::ffff:a.b.c.d`) collapses
to its 4-byte form; everything else is unchanged. -/
def ipTo4 : IPAddr → IPAddr
  | IPAddr.v4 a b c d => IPAddr.v4 a b c d
  | IPAddr.v6 gs =>
    match gs with
    | [0, 0, 0, 0, 0, 65535, hi, lo] =>
      IPAddr.v4 (hi / 256) (hi % 256) (lo / 256) (lo % 256)
    | _ => IPAddr.v6 gs

/-- `ipget.strToIP` (part_000 lines 170-179): parse, then prefer the
4-byte form when `To4` applies; `none` models the nil return on an invalid
literal. -/
def strToIP (s : String) : Option IPAddr :=
  (parseIP s).map ipTo4

/-- Lowercase hexadecimal rendering of one IPv6 group. -/
def hexStr (n : Nat) : String :=
  String.mk (Nat.toDigits 16 n)

/-- Length of the zero-group run starting at the head of the list. -/
def zeroRunLen : List Nat → Nat
  | 0 :: rest => 1 + zeroRunLen rest
  | _ => 0

/-- Leftmost longest zero-group run: fold over all start positions keeping
the strictly longest (ties keep the earlier start, as Go's `net.IP.String`
does). -/
def bestZeroRun : List Nat → Nat → Nat × Nat → Nat × Nat
  | [], _, best => best
  | g :: rest, i, best =>
    let l := zeroRunLen (g :: rest)
    bestZeroRun rest (i + 1) (if l > best.2 then (i, l) else best)

/-- `net.IP.String` for an IPv6 value: groups in lowercase hex separated by
colons, with the leftmost longest run of two or more zero groups
compressed to `::`. -/
def ipv6String (gs : List Nat) : String :=
  let best := bestZeroRun gs 0 (0, 0)
  if best.2 ≥ 2 then
    String.intercalate ":" ((gs.take best.1).map hexStr) ++ "::" ++
      String.intercalate ":" ((gs.drop (best.1 + best.2)).map hexStr)
  else
    String.intercalate ":" (gs.map hexStr)

/-- `net.IP.String` on the result of `strToIP`: dotted decimal for the
4-byte form, RFC 5952 text for IPv6. -/
def ipString : IPAddr → String
  | IPAddr.v4 a b c d =>
    toString a ++ "." ++ toString b ++ "." ++ toString c ++ "." ++ toString d
  | IPAddr.v6 gs => ipv6String gs

/-- The error values the resolver distinguishes: the two context errors
(`context.DeadlineExceeded`, `context.Canceled`), a non-OK HTTP status, any
other transport error, and the final "could not retrieve public IP
address" failure. -/
inductive GoErr where
  | ctxDeadline
  | ctxCanceled
  | statusCode (code : Nat)
  | netOther
  | noAddress
deriving DecidableEq, Repr

/-- What one provider's HTTP exchange produced: a transport/context error
from `client.Do`, or a status code with a response body. -/
inductive Resp where
  | fail (e : GoErr)
  | ok (status : Nat) (body : String)

/-- The `errors.Is(err, context.DeadlineExceeded) || errors.Is(err,
context.Canceled)` test of `getPublicIP` (part_000 line 236). -/
def isCtxErr : GoErr → Bool
  | GoErr.ctxDeadline => true
  | GoErr.ctxCanceled => true
  | _ => false

/-- `ipget.getSmallText` (part_000 lines 199-226) on a provider's
exchange: a transport error propagates; a non-200 status is an error; a
200 response yields the whitespace-trimmed first 128 bytes of the body
(`io.LimitReader(resp.Body, 128)` then `strings.TrimSpace`). Bodies are
ASCII in this model, so bytes coincide with characters. -/
def getSmallText : Resp → Except GoErr String
  | Resp.fail e => Except.error e
  | Resp.ok status body =>
    if status = 200 then Except.ok (String.mk (goTrimSpace (body.data.take 128)))
    else Except.error (GoErr.statusCode status)

/-- `ipget.getPublicIP` (part_000 lines 229-253) over the (already
shuffled) provider list, each provider represented by its exchange
outcome: a context error aborts immediately; any other error skips to the
next provider; a body that parses as a strict IP literal returns its
canonical string; an unparsable body skips; an exhausted list yields the
"could not retrieve public IP address" error. -/
def getPublicIP : List Resp → Except GoErr String
  | [] => Except.error GoErr.noAddress
  | r :: rest =>
    match getSmallText r with
    | Except.error e => if isCtxErr e then Except.error e else getPublicIP rest
    | Except.ok s =>
      match strToIP s with
      | some ip => Except.ok (ipString ip)
      | none => getPublicIP rest

/-- A provider outcome that `getPublicIP` passes over: a non-context error
or a body that does not parse as an IP literal. -/
def skippable (r : Resp) : Bool :=
  match getSmallText r with
  | Except.error e => !isCtxErr e
  | Except.ok s => (strToIP s).isNone

/-- Claim C5: `getPublicIP` tries the (shuffled) providers in order; a
context deadline/cancellation error from a provider is returned
immediately without trying further providers; any other provider error
(including a non-200 status) skips to the next provider, as does a body
that fails strict IP parsing; and when every provider is exhausted without
a valid answer the resolution fails with the no-address error. -/
theorem getPublicIP_provider_order :
    (∀ (e : GoErr) (rest : List Resp), isCtxErr e = true →
      getPublicIP (Resp.fail e :: rest) = Except.error e) ∧
    (∀ (e : GoErr) (rest : List Resp), isCtxErr e = false →
      getPublicIP (Resp.fail e :: rest) = getPublicIP rest) ∧
    (∀ (status : Nat) (body : String) (rest : List Resp), status ≠ 200 →
      getPublicIP (Resp.ok status body :: rest) = getPublicIP rest) ∧
    (∀ (body : String) (rest : List Resp),
      strToIP (String.mk (goTrimSpace (body.data.take 128))) = none →
      getPublicIP (Resp.ok 200 body :: rest) = getPublicIP rest) ∧
    (∀ rs : List Resp, (∀ r ∈ rs, skippable r = true) →
      getPublicIP rs = Except.error GoErr.noAddress) := by
  refine ⟨?_, ?_, ?_, ?_, ?_⟩
  · intro e rest h
    simp [getPublicIP, getSmallText, h]
  · intro e rest h
    simp [getPublicIP, getSmallText, h]
  · intro status body rest h
    have : isCtxErr (GoErr.statusCode status) = false := rfl
    simp [getPublicIP, getSmallText, h, this]
  · intro body rest h
    simp [getPublicIP, getSmallText, h]
  · intro rs h
    induction rs with
    | nil => rfl
    | cons r rest ih =>
      have hr := h r (List.mem_cons_self r rest)
      have hrest := ih (fun x hx => h x (List.mem_cons_of_mem r hx))
      cases hg : getSmallText r with
      | error e =>
        simp only [skippable, hg, Bool.not_eq_true'] at hr
        simp [getPublicIP, hg, hr, hrest]
      | ok s =>
        simp only [skippable, hg, Option.isNone_iff_eq_none] at hr
        simp [getPublicIP, hg, hr, hrest]

/-- Witness for `getPublicIP_provider_order`: a context error aborts in
front of a working provider; a transport error, a 503 and a malformed body
are each skipped before a working provider answers; two skippable
providers alone exhaust to the no-address error. -/
theorem getPublicIP_provider_order_witness :
    getPublicIP [Resp.fail GoErr.ctxDeadline, Resp.ok 200 "203.0.113.9"] =
      Except.error GoErr.ctxDeadline ∧
    getPublicIP [Resp.fail GoErr.netOther, Resp.ok 503 "x",
      Resp.ok 200 "not an ip", Resp.ok 200 "203.0.113.9"] =
      Except.ok "203.0.113.9" ∧
    getPublicIP [Resp.ok 503 "x", Resp.ok 200 "nope"] =
      Except.error GoErr.noAddress := by
  refine ⟨getPublicIP_provider_order.1 _ _ rfl, ?_, ?_⟩
  · rw [getPublicIP_provider_order.2.1 GoErr.netOther _ rfl,
      getPublicIP_provider_order.2.2.1 503 "x" _ (by decide),
      getPublicIP_provider_order.2.2.2.1 "not an ip" _ (by decide)]
    rfl
  · exact getPublicIP_provider_order.2.2.2.2 _ (by decide)

/-- A provider body whose leading whitespace pushes the IP literal past
the 128-byte read limit: 126 spaces followed by `1.2.3.4`. -/
def exLongBody : String :=
  String.mk (List.replicate 126 ' ') ++ "1.2.3.4"

/-- Claim C9: the resolver reads only the first 128 bytes of a provider's
body — a 200 response yields the whitespace-trimmed 128-byte prefix — so a
provider whose body is a valid IP literal that does not fit entirely
within those first 128 bytes (here: 126 spaces then `1.2.3.4`, truncated
to `1.`) is treated as unparsable and skipped, exhausting the provider
list. -/
theorem getSmallText_truncates_at_128 :
    (∀ body : String,
      getSmallText (Resp.ok 200 body) =
        Except.ok (String.mk (goTrimSpace (body.data.take 128)))) ∧
    strToIP (String.mk (goTrimSpace exLongBody.data)) = some (IPAddr.v4 1 2 3 4) ∧
    getPublicIP [Resp.ok 200 exLongBody] = Except.error GoErr.noAddress := by
  refine ⟨fun body => rfl, ?_, ?_⟩
  · decide
  · rfl

/-- Dereference of a `*bool` config flag (`*cfdns.cfg.IPv4`). `LoadConfig`
guarantees the pointer is non-nil before `Process` runs; `none` is mapped
to `false` for totality. -/
def famEnabled : Option Bool → Bool
  | some b => b
  | none => false

/-- `CFDNS.getPublicIPs` (part_000 lines 503-538) with each family's
provider outcomes supplied explicitly: a family that is disabled never
submits a resolution task and keeps the zero-value empty string; an
enabled family whose resolution errors is set to the empty string; a
successful resolution yields its address. -/
def getPublicIPs (c : Config) (resp4 resp6 : List Resp) : String × String :=
  let ipv4 :=
    if famEnabled c.ipv4 then
      match getPublicIP resp4 with
      | Except.error _ => ""
      | Except.ok v => v
    else ""
  let ipv6 :=
    if famEnabled c.ipv6 then
      match getPublicIP resp6 with
      | Except.error _ => ""
      | Except.ok v => v
    else ""
  (ipv4, ipv6)

/-- One create-or-update task submitted by `Process` to the worker pool:
the domain it reconciles, the record type and the address to apply. -/
structure TaskSub where
  hostname : String
  rtype : String
  address : String
deriving DecidableEq, Repr

/-- The domain loop of `CFDNS.Process` (part_000 lines 557-587): per
domain, an A task is submitted when the IPv4 family is enabled and its
resolved address is non-empty, then an AAAA task under the same guard for
IPv6, in source order. -/
def submitDomains (en4 en6 : Bool) (ipv4 ipv6 : String) : List Domain → List TaskSub
  | [] => []
  | d :: rest =>
    (if en4 && ipv4 != "" then [⟨d.hostname, "A", ipv4⟩] else []) ++
    (if en6 && ipv6 != "" then [⟨d.hostname, "AAAA", ipv6⟩] else []) ++
    submitDomains en4 en6 ipv4 ipv6 rest

/-- `CFDNS.Process` (part_000 lines 540-592) as the list of create-or-
update tasks it submits in one cycle: nothing when zone validation failed,
otherwise the domain loop over the addresses `getPublicIPs` produced. -/
def processSubmissions (zoneOk : Bool) (c : Config) (resp4 resp6 : List Resp) :
    List TaskSub :=
  if zoneOk then
    let p := getPublicIPs c resp4 resp6
    submitDomains (famEnabled c.ipv4) (famEnabled c.ipv6) p.1 p.2 c.domains
  else []

lemma submitDomains_filter_A_of_empty (en4 en6 : Bool) (ipv6 : String)
    (ds : List Domain) :
    (submitDomains en4 en6 "" ipv6 ds).filter (fun t => t.rtype == "A") = [] := by
  induction ds with
  | nil => rfl
  | cons d rest ih =>
    by_cases h6 : (en6 && ipv6 != "") = true <;>
      simp [submitDomains, List.filter_append, h6, ih]

lemma submitDomains_filter_AAAA_of_empty (en4 en6 : Bool) (ipv4 : String)
    (ds : List Domain) :
    (submitDomains en4 en6 ipv4 "" ds).filter (fun t => t.rtype == "AAAA") = [] := by
  induction ds with
  | nil => rfl
  | cons d rest ih =>
    by_cases h4 : (en4 && ipv4 != "") = true <;>
      simp [submitDomains, List.filter_append, h4, ih]

/-- Claim C6: for each address family, when that family's public-IP
resolution fails (or the family is disabled), the family's address for
the cycle is the empty string, `Process` submits no create-or-update task
for that family, and the tasks submitted for the other family are exactly
what they would be regardless of the failed family's provider outcomes —
stated for IPv4 failing (first conjunct) and for IPv6 failing (second
conjunct). -/
theorem process_failed_family_submits_nothing (zoneOk : Bool) (c : Config)
    (resp4 resp6 : List Resp) :
    ((famEnabled c.ipv4 = false ∨ ∃ e, getPublicIP resp4 = Except.error e) →
      (getPublicIPs c resp4 resp6).1 = "" ∧
      (processSubmissions zoneOk c resp4 resp6).filter (fun t => t.rtype == "A") = [] ∧
      processSubmissions zoneOk c resp4 resp6 = processSubmissions zoneOk c [] resp6) ∧
    ((famEnabled c.ipv6 = false ∨ ∃ e, getPublicIP resp6 = Except.error e) →
      (getPublicIPs c resp4 resp6).2 = "" ∧
      (processSubmissions zoneOk c resp4 resp6).filter (fun t => t.rtype == "AAAA") = [] ∧
      processSubmissions zoneOk c resp4 resp6 = processSubmissions zoneOk c resp4 []) := by
  constructor
  · intro h
    have hip : getPublicIPs c resp4 resp6 = getPublicIPs c [] resp6 := by
      rcases h with h | ⟨e, he⟩
      · simp [getPublicIPs, h]
      · simp [getPublicIPs, he, getPublicIP]
    have hempty : (getPublicIPs c [] resp6).1 = "" := by
      by_cases h4 : famEnabled c.ipv4 <;> simp [getPublicIPs, getPublicIP, h4]
    refine ⟨by rw [hip]; exact hempty, ?_, ?_⟩
    · by_cases hz : zoneOk
      · simp only [processSubmissions, hz, if_true, hip]
        rw [hempty]
        exact submitDomains_filter_A_of_empty _ _ _ _
      · simp [processSubmissions, hz]
    · unfold processSubmissions
      rw [hip]
  · intro h
    have hip : getPublicIPs c resp4 resp6 = getPublicIPs c resp4 [] := by
      rcases h with h | ⟨e, he⟩
      · simp [getPublicIPs, h]
      · simp [getPublicIPs, he, getPublicIP]
    have hempty : (getPublicIPs c resp4 []).2 = "" := by
      by_cases h6 : famEnabled c.ipv6 <;> simp [getPublicIPs, getPublicIP, h6]
    refine ⟨by rw [hip]; exact hempty, ?_, ?_⟩
    · by_cases hz : zoneOk
      · simp only [processSubmissions, hz, if_true, hip]
        rw [hempty]
        exact submitDomains_filter_AAAA_of_empty _ _ _ _
      · simp [processSubmissions, hz]
    · unfold processSubmissions
      rw [hip]

/-- A configuration with both families enabled and one domain, used by the
`Process` witnesses. -/
def exProcCfg : Config :=
  { zoneID := "z", token := "t", frequency := 3600000000000, verbose := false,
    ipv4 := some true, ipv6 := some true,
    domains := [⟨"a.example.com", none⟩], workerCount := 10,
    timeout := 10000000000 }

/-- Witness for `process_failed_family_submits_nothing`, in both
directions: with every IPv4 provider down and IPv6 resolving, no A task is
submitted; with every IPv6 provider down and IPv4 resolving, no AAAA task
is submitted. -/
theorem process_failed_family_submits_nothing_witness :
    (processSubmissions true exProcCfg
      [Resp.fail GoErr.netOther] [Resp.ok 200 "2001:db8::1"]).filter
        (fun t => t.rtype == "A") = [] ∧
    (processSubmissions true exProcCfg
      [Resp.ok 200 "203.0.113.9"] [Resp.fail GoErr.netOther]).filter
        (fun t => t.rtype == "AAAA") = [] :=
  ⟨((process_failed_family_submits_nothing true exProcCfg [Resp.fail GoErr.netOther]
      [Resp.ok 200 "2001:db8::1"]).1 (Or.inr ⟨GoErr.noAddress, by rfl⟩)).2.1,
   ((process_failed_family_submits_nothing true exProcCfg [Resp.ok 200 "203.0.113.9"]
      [Resp.fail GoErr.netOther]).2 (Or.inr ⟨GoErr.noAddress, by rfl⟩)).2.1⟩

/-- `FileSig` (cmd, v0.3.1 watcher): the configuration file's modification
time (nanoseconds, `Int`), size and inode number. -/
structure FileSig where
  modTime : Int
  size : Int
  inode : Nat
deriving DecidableEq, Repr

/-- `(*FileSig).Changed` with Go nil-pointer receivers and arguments made
explicit: `false` when either signature is nil, otherwise
`fs2.ModTime.After(fs1.ModTime) || fs2.Size != fs1.Size ||
fs2.Inode != fs1.Inode`. -/
def fsChanged : Option FileSig → Option FileSig → Bool
  | some fs1, some fs2 =>
    decide (fs1.modTime < fs2.modTime) || fs2.size != fs1.size || fs2.inode != fs1.inode
  | _, _ => false

/-- One tick of the `watchFile` goroutine (cmd, v0.3.1): given the stored
baseline signature and the freshly observed one (`none` = stat failed),
produce the new baseline and whether a notification is emitted. A failed
stat skips the tick; a first successful observation seeds the baseline
without emitting; a changed signature replaces the baseline and emits;
an unchanged one does nothing. -/
def watchStep (sig obs : Option FileSig) : Option FileSig × Bool :=
  match obs with
  | none => (sig, false)
  | some s =>
    match sig with
    | none => (some s, false)
    | some old =>
      if fsChanged (some old) (some s) then (some s, true) else (some old, false)

/-- Claim C8: the change predicate holds between a stored and a new
signature exactly when the new modification time is strictly later, or the
sizes differ, or the inodes differ; it never holds when either signature
is nil; the watcher tick emits a notification only when the predicate
holds; and a first successful observation over an empty baseline seeds the
baseline without emitting. -/
theorem fsChanged_watch_behaviour :
    (∀ fs1 fs2 : FileSig,
      fsChanged (some fs1) (some fs2) = true ↔
        (fs1.modTime < fs2.modTime ∨ fs2.size ≠ fs1.size ∨ fs2.inode ≠ fs1.inode)) ∧
    (∀ x : Option FileSig, fsChanged none x = false ∧ fsChanged x none = false) ∧
    (∀ sig obs st : Option FileSig, watchStep sig obs = (st, true) →
      fsChanged sig obs = true) ∧
    (∀ s : FileSig, watchStep none (some s) = (some s, false)) := by
  refine ⟨?_, ?_, ?_, ?_⟩
  · intro fs1 fs2
    simp [fsChanged, or_assoc]
  · intro x
    cases x <;> exact ⟨rfl, rfl⟩
  · intro sig obs st h
    cases obs with
    | none => simp [watchStep] at h
    | some s =>
      cases sig with
      | none => simp [watchStep] at h
      | some old =>
        by_cases hc : fsChanged (some old) (some s) = true
        · exact hc
        · simp [watchStep, hc] at h
  · intro s
    rfl

/-- Witness for `fsChanged_watch_behaviour`: a tick that emits (size
changed from 10 to 11) indeed satisfies the change predicate. -/
theorem fsChanged_watch_behaviour_witness :
    fsChanged (some ⟨100, 10, 7⟩) (some ⟨100, 11, 7⟩) = true :=
  fsChanged_watch_behaviour.2.2.1 (some ⟨100, 10, 7⟩) (some ⟨100, 11, 7⟩)
    (some ⟨100, 11, 7⟩) (by decide)

/-- `strings.TrimSpace` on a config field. -/
def goTrim (s : String) : String :=
  String.mk (goTrimSpace s.data)

/-- `config.DEFAULT_FREQUENCY = time.Hour` in nanoseconds. -/
def DEFAULT_FREQUENCY : Int := 3600000000000

/-- `config.MINIMUM_FREQUENCY = time.Minute` in nanoseconds. -/
def MINIMUM_FREQUENCY : Int := 60000000000

/-- `config.DEFAULT_TIMEOUT = 10 * time.Second` in nanoseconds. -/
def DEFAULT_TIMEOUT : Int := 10000000000

/-- `config.MINIMUM_TIMEOUT = time.Second` in nanoseconds. -/
def MINIMUM_TIMEOUT : Int := 1000000000

/-- `config.DEFAULT_WORKER_COUNT`. -/
def DEFAULT_WORKER_COUNT : Int := 10

/-- `config.MINIMUM_WORKER_COUNT`. -/
def MINIMUM_WORKER_COUNT : Int := 1

/-- `config.MAXIMUM_WORKER_COUNT`. -/
def MAXIMUM_WORKER_COUNT : Int := 100

/-- The frequency defaulting and clamping of `LoadConfig` (part_003 lines
100-107): zero becomes the one-hour default, anything below the one-minute
minimum is raised to it. -/
def normFrequency (f : Int) : Int :=
  let f1 := if f = 0 then DEFAULT_FREQUENCY else f
  if f1 < MINIMUM_FREQUENCY then MINIMUM_FREQUENCY else f1

/-- The timeout defaulting and clamping of `LoadConfig` (part_003 lines
109-115): zero becomes the ten-second default, anything below the
one-second minimum is raised to it. -/
def normTimeout (t : Int) : Int :=
  let t1 := if t = 0 then DEFAULT_TIMEOUT else t
  if t1 < MINIMUM_TIMEOUT then MINIMUM_TIMEOUT else t1

/-- The worker-count defaulting and clamping of `LoadConfig` (part_003
lines 117-127): non-positive becomes the default 10, then the value is
clamped into [1, 100]. -/
def normWorkerCount (w : Int) : Int :=
  let w1 := if w ≤ 0 then DEFAULT_WORKER_COUNT else w
  let w2 := if w1 < MINIMUM_WORKER_COUNT then MINIMUM_WORKER_COUNT else w1
  if w2 > MAXIMUM_WORKER_COUNT then MAXIMUM_WORKER_COUNT else w2

/-- The IPv4/IPv6 flag normalization of `LoadConfig` (part_003 lines
129-145): when neither flag is specified both become true; afterwards any
still-unspecified flag becomes false. -/
def normFlags (v4 v6 : Option Bool) : Option Bool × Option Bool :=
  if v4 = none ∧ v6 = none then (some true, some true)
  else (if v4 = none then some false else v4,
        if v6 = none then some false else v6)

/-- The validation and defaulting pipeline of `config.LoadConfig`
(part_003 lines 87-150), applied to the configuration value the YAML
decoder produced (file reading, environment expansion and YAML decoding
are the external collaborators in front of it): trim and require the zone
ID and token, require a non-empty domain list, default/clamp frequency,
timeout and worker count, normalize the family flags, and reject a
configuration with both families disabled. -/
def validateConfig (c0 : Config) : Except String Config :=
  if goTrim c0.zoneID = "" then Except.error "zone id cannot be empty"
  else if goTrim c0.token = "" then Except.error "API token cannot be empty"
  else if c0.domains.isEmpty then Except.error "domains list cannot be empty"
  else if (normFlags c0.ipv4 c0.ipv6).1 = some false ∧
      (normFlags c0.ipv4 c0.ipv6).2 = some false then
    Except.error "at least one of ipv4 or ipv6 must be enabled"
  else
    Except.ok { c0 with
      zoneID := goTrim c0.zoneID
      token := goTrim c0.token
      frequency := normFrequency c0.frequency
      timeout := normTimeout c0.timeout
      workerCount := normWorkerCount c0.workerCount
      ipv4 := (normFlags c0.ipv4 c0.ipv6).1
      ipv6 := (normFlags c0.ipv4 c0.ipv6).2 }

lemma normFrequency_ge (f : Int) : MINIMUM_FREQUENCY ≤ normFrequency f := by
  simp only [normFrequency, DEFAULT_FREQUENCY, MINIMUM_FREQUENCY]
  split_ifs <;> omega

lemma normTimeout_ge (t : Int) : MINIMUM_TIMEOUT ≤ normTimeout t := by
  simp only [normTimeout, DEFAULT_TIMEOUT, MINIMUM_TIMEOUT]
  split_ifs <;> omega

lemma normWorkerCount_bounds (w : Int) :
    1 ≤ normWorkerCount w ∧ normWorkerCount w ≤ 100 := by
  simp only [normWorkerCount, DEFAULT_WORKER_COUNT, MINIMUM_WORKER_COUNT,
    MAXIMUM_WORKER_COUNT]
  split_ifs <;> omega

lemma normWorkerCount_default (w : Int) (h : w ≤ 0) :
    normWorkerCount w = DEFAULT_WORKER_COUNT := by
  simp only [normWorkerCount, DEFAULT_WORKER_COUNT, MINIMUM_WORKER_COUNT,
    MAXIMUM_WORKER_COUNT]
  split_ifs <;> omega

lemma normFlags_true_of_not_both_false :
    ∀ v4 v6 : Option Bool,
      ¬((normFlags v4 v6).1 = some false ∧ (normFlags v4 v6).2 = some false) →
      (normFlags v4 v6).1 = some true ∨ (normFlags v4 v6).2 = some true := by
  decide

/-- Claim C7: every configuration the `LoadConfig` pipeline returns
without error satisfies the invariant: zone ID and token are the non-empty
trims of the raw fields, the domain list is non-empty, frequency is at
least the one-minute minimum (the one-hour default when unset), timeout is
at least the one-second minimum (the ten-second default when unset),
worker count lies in [1, 100] (the default 10 when unset or non-positive),
at least one family flag is true, and both are true when neither was
specified; an explicitly both-false configuration is always rejected. -/
theorem validateConfig_invariants :
    (∀ c0 c : Config, validateConfig c0 = Except.ok c →
      c.zoneID = goTrim c0.zoneID ∧ c.zoneID ≠ "" ∧
      c.token = goTrim c0.token ∧ c.token ≠ "" ∧
      c.domains ≠ [] ∧
      MINIMUM_FREQUENCY ≤ c.frequency ∧
      (c0.frequency = 0 → c.frequency = DEFAULT_FREQUENCY) ∧
      MINIMUM_TIMEOUT ≤ c.timeout ∧
      (c0.timeout = 0 → c.timeout = DEFAULT_TIMEOUT) ∧
      (1 ≤ c.workerCount ∧ c.workerCount ≤ 100) ∧
      (c0.workerCount ≤ 0 → c.workerCount = DEFAULT_WORKER_COUNT) ∧
      (c.ipv4 = some true ∨ c.ipv6 = some true) ∧
      (c0.ipv4 = none → c0.ipv6 = none → c.ipv4 = some true ∧ c.ipv6 = some true)) ∧
    (∀ c0 : Config, c0.ipv4 = some false → c0.ipv6 = some false →
      (validateConfig c0).isOk = false) := by
  constructor
  · intro c0 c h
    unfold validateConfig at h
    split_ifs at h with h1 h2 h3 h4
    simp only [Except.ok.injEq] at h
    subst h
    refine ⟨rfl, h1, rfl, h2, ?_, normFrequency_ge _, ?_, normTimeout_ge _, ?_,
      normWorkerCount_bounds _, normWorkerCount_default _, ?_, ?_⟩
    · simpa [List.isEmpty_iff] using h3
    · intro hf
      simp [normFrequency, hf, DEFAULT_FREQUENCY, MINIMUM_FREQUENCY]
    · intro ht
      simp [normTimeout, ht, DEFAULT_TIMEOUT, MINIMUM_TIMEOUT]
    · exact normFlags_true_of_not_both_false _ _ h4
    · intro h4n h6n
      constructor
      · show (normFlags c0.ipv4 c0.ipv6).1 = some true
        rw [h4n, h6n]
        rfl
      · show (normFlags c0.ipv4 c0.ipv6).2 = some true
        rw [h4n, h6n]
        rfl
  · intro c0 h4 h6
    unfold validateConfig
    split_ifs with h1 h2 h3 hf
    · rfl
    · rfl
    · rfl
    · rfl
    · exact absurd (by rw [h4, h6]; exact ⟨rfl, rfl⟩) hf

/-- A raw decoded configuration exercising every defaulting branch:
untrimmed zone and token, unset frequency/timeout/worker count, neither
family flag specified. -/
def exRawCfg : Config :=
  { zoneID := "  zone1  ", token := " tok ", frequency := 0, verbose := false,
    ipv4 := none, ipv6 := none, domains := [⟨"a.example.com", none⟩],
    workerCount := 0, timeout := 0 }

/-- The configuration `validateConfig` produces from `exRawCfg`. -/
def exValidatedCfg : Config :=
  { zoneID := "zone1", token := "tok", frequency := 3600000000000,
    verbose := false, ipv4 := some true, ipv6 := some true,
    domains := [⟨"a.example.com", none⟩], workerCount := 10,
    timeout := 10000000000 }

/-- Witness for `validateConfig_invariants`: the concrete raw
configuration validates successfully into a configuration meeting the
floors, and its both-false variant is rejected. -/
theorem validateConfig_invariants_witness :
    MINIMUM_FREQUENCY ≤ exValidatedCfg.frequency ∧
    (exValidatedCfg.ipv4 = some true ∨ exValidatedCfg.ipv6 = some true) ∧
    (validateConfig { exRawCfg with ipv4 := some false, ipv6 := some false }).isOk
      = false := by
  have h := validateConfig_invariants
  have hok : validateConfig exRawCfg = Except.ok exValidatedCfg := by rfl
  have h1 := h.1 exRawCfg exValidatedCfg hok
  exact ⟨h1.2.2.2.2.2.1, h1.2.2.2.2.2.2.2.2.2.2.2.1, h.2 _ rfl rfl⟩

/-- First character of a `${VAR}` identifier, per the regex
`[A-Za-z_][A-Za-z0-9_]*` of `config.reEnv`. -/
def isIdentStart (c : Char) : Bool :=
  c.isAlpha || c = '_'

/-- Subsequent characters of a `${VAR}` identifier. -/
def isIdentChar (c : Char) : Bool :=
  c.isAlphanum || c = '_'

/-- Greedily take one identifier from the front of the character list,
returning it with the remainder; fails when the first character cannot
start an identifier. -/
def takeIdent (cs : List Char) : Option (String × List Char) :=
  match cs with
  | [] => none
  | c :: rest =>
    if isIdentStart c then
      some (String.mk (c :: rest.takeWhile isIdentChar), rest.dropWhile isIdentChar)
    else none

/-- One piece of the configuration text as the `reEnv` regex decomposes
it: a literal character outside any match, or a `${name}` reference. -/
inductive Seg where
  | lit (c : Char)
  | ref (name : String)
deriving DecidableEq, Repr

/-- Fuel-indexed worker for the template scan; the fuel only bounds the
recursion depth (one unit per emitted segment, each consuming at least one
character), so any fuel of at least the text length is enough. -/
def scanTemplateFuel : Nat → List Char → List Seg
  | 0, _ => []
  | _ + 1, [] => []
  | fuel + 1, '$' :: '{' :: rest2 =>
    match takeIdent rest2 with
    | some (name, '}' :: rest3) => Seg.ref name :: scanTemplateFuel fuel rest3
    | _ => Seg.lit '$' :: scanTemplateFuel fuel ('{' :: rest2)
  | fuel + 1, c :: rest => Seg.lit c :: scanTemplateFuel fuel rest

/-- The leftmost-first, non-overlapping decomposition of the text into
literal characters and `${VAR}` matches of `config.reEnv`: a `${` followed
by an identifier and `}` is a reference; any other character (including a
`$` not opening a full match) is a literal. -/
def scanTemplate (cs : List Char) : List Seg :=
  scanTemplateFuel cs.length cs

/-- The variable names the text references through `${VAR}` matches, in
order of occurrence. -/
def segVars (segs : List Seg) : List String :=
  segs.filterMap fun s =>
    match s with
    | Seg.ref n => some n
    | Seg.lit _ => none

/-- The names `${VAR}` references in a configuration text. -/
def refVars (s : String) : List String :=
  segVars (scanTemplate s.data)

/-- What `reEnv.ReplaceAllStringFunc` substitutes for one piece: literal
characters stay, a reference becomes the environment value, or the empty
string when the variable is unset (the case that also records it as
missing). -/
def renderSeg (env : String → Option String) : Seg → String
  | Seg.lit c => String.mk [c]
  | Seg.ref n => (env n).getD ""

/-- `config.expandEnv` (part_003 lines 43-63) with `os.LookupEnv` supplied
as a function: replace every `${VAR}` match, collecting the set of unset
referenced variables; when any is missing return the error naming them
(the deduplicated name list models the Go map's key set), otherwise return
the substituted text. -/
def expandEnv (env : String → Option String) (data : String) :
    Except (List String) String :=
  if (((refVars data).filter (fun n => (env n).isNone)).dedup).isEmpty then
    Except.ok (String.join ((scanTemplate data.data).map (renderSeg env)))
  else
    Except.error (((refVars data).filter (fun n => (env n).isNone)).dedup)

lemma filter_isNone_eq_nil_iff (env : String → Option String) (l : List String) :
    l.filter (fun n => (env n).isNone) = [] ↔ ∀ n ∈ l, (env n).isSome := by
  rw [List.filter_eq_nil_iff]
  constructor
  · intro h n hn
    have h2 := h n hn
    cases henv : env n with
    | none => rw [henv] at h2; simp at h2
    | some v => simp
  · intro h n hn
    have h2 := h n hn
    cases henv : env n with
    | none => rw [henv] at h2; simp at h2
    | some v => simp [henv]

/-- Claim C10: the expansion stage of `LoadConfig` fails — with the error
naming the missing variables — exactly when the text references, via
`${VAR}`, at least one unset environment variable; when every referenced
variable is set it succeeds and every `${VAR}` occurrence is replaced by
that variable's value (illustrated on a concrete config text both ways). -/
theorem expandEnv_missing_iff :
    (∀ (env : String → Option String) (data : String),
      (expandEnv env data).isOk = true ↔ ∀ n ∈ refVars data, (env n).isSome) ∧
    (∀ (env : String → Option String) (data out : String),
      expandEnv env data = Except.ok out →
        out = String.join ((scanTemplate data.data).map (renderSeg env))) ∧
    expandEnv (fun n => if n = "ZONE" then some "abc123" else none)
      "zone_id: ${ZONE}\ntoken: ${CF_TOKEN}\n" = Except.error ["CF_TOKEN"] ∧
    expandEnv (fun n => if n = "ZONE" then some "abc123" else none)
      "zone_id: ${ZONE}\n" = Except.ok "zone_id: abc123\n" := by
  refine ⟨?_, ?_, by rfl, by rfl⟩
  · intro env data
    unfold expandEnv
    by_cases hm : ((refVars data).filter (fun n => (env n).isNone)).dedup = []
    · rw [if_pos (by simp [hm])]
      rw [List.dedup_eq_nil, filter_isNone_eq_nil_iff] at hm
      exact iff_of_true rfl hm
    · rw [if_neg (by simpa [List.isEmpty_iff] using hm)]
      rw [List.dedup_eq_nil, filter_isNone_eq_nil_iff] at hm
      exact iff_of_false (by simp [Except.isOk, Except.toBool]) hm
  · intro env data out h
    unfold expandEnv at h
    split_ifs at h
    all_goals first
      | exact Except.noConfusion h
      | simpa using h.symm

/-- Witness for `expandEnv_missing_iff`: on the concrete config fragment
with `ZONE` set, the successful expansion is exactly the segment
rendering. -/
theorem expandEnv_missing_iff_witness :
    "zone_id: abc123\n" =
      String.join ((scanTemplate ("zone_id: ${ZONE}\n").data).map
        (renderSeg (fun n => if n = "ZONE" then some "abc123" else none))) :=
  expandEnv_missing_iff.2.1 (fun n => if n = "ZONE" then some "abc123" else none)
    "zone_id: ${ZONE}\n" "zone_id: abc123\n" (by rfl)

end Cfdns
